import Mathlib

/-!
Verification of the cloud-storage Telegram bot (src/bot.ts,
src/services/cloudStorageApi.ts) against its natural-language specification.

The TypeScript code is shallowly embedded as follows.

* Pure helpers (`formatFileSize`, `getUserDisplayName`, `isProcessed`, the
  `delete_link` keyboard/text builders) become Lean functions.  The JavaScript
  `x || d` fallback on strings (which treats both `undefined` and `""` as
  falsy) is modelled by `jsOr` / `jsStrOr`, and on numbers (which treats `0`
  as falsy) by `jsNumOr`.  `Number.prototype.toFixed(1)` applied to the exact
  value `num / den` (here `den` is a power of two, so the IEEE double holds
  the value exactly for byte counts below 2^53) rounds to the nearest tenth,
  ties toward the larger value; `toFixed1` computes exactly that rounding.

* Network effects are embedded with an explicit oracle `BackendEnv` whose
  fields give the outcome of each raw backend / provider / object-storage
  call, and every handler or orchestration function returns the ordered list
  of external calls it performed (`ExtCall`) next to its result.  A call is
  appended to the trace at the moment the code would issue it, and a thrown
  exception is an `Except.error` that stops the remaining calls from being
  appended, mirroring `await` + `throw` in the straight-line TypeScript.

* The webhook-deduplication state `processedUpdates : Set<number>` is a
  `List Nat` in insertion order (JavaScript `Set` iterates in insertion
  order, so `Array.from(set).slice(0, 500)` is `take 500` and deleting those
  entries is `drop 500`).  Handlers take the state and return the updated
  state.
-/

/-- JavaScript `o || d` for an optional string field: `undefined`/missing and
`""` both fall through to the default. -/
def jsOr (o : Option String) (d : String) : String :=
  match o with
  | none => d
  | some s => if s = "" then d else s

/-- JavaScript `s || d` for a present string: `""` falls through. -/
def jsStrOr (s d : String) : String :=
  if s = "" then d else s

/-- JavaScript `o || d` for an optional number field: `undefined` and `0`
both fall through to the default. -/
def jsNumOr (o : Option Nat) (d : Nat) : Nat :=
  match o with
  | none => d
  | some n => if n = 0 then d else n

/-- Raw file bytes (`Buffer` in the TypeScript code). -/
abbrev Buffer := List Nat

/-- `Except.isOk` spelled out, used to state that a caught failure is
reported as a boolean rather than re-thrown. -/
def isOkE {ε α : Type} : Except ε α → Bool
  | .ok _ => true
  | .error _ => false

/-! ## Storage API client data shapes (src/services/cloudStorageApi.ts) -/

/-- The backend's structured failure envelope (`ApiErrorResponse`).  The
TypeScript declaration marks `message` as required and `error` as optional,
but the client code defends against a missing or empty `message` with
`errorData.message || errorData.error || ...`, so both are `Option` here. -/
structure ApiErrorResponse where
  status : String
  message : Option String
  error : Option String
deriving DecidableEq, Repr

/-- The typed error thrown by the client (`CloudStorageApiError`): message,
HTTP status code, and the backend envelope when one was parsed. -/
structure CloudStorageApiError where
  message : String
  statusCode : Nat
  response : Option ApiErrorResponse
deriving DecidableEq, Repr

/-- Any error a handler can catch: the typed client error, or a plain
`Error` (transport failures, `throw new Error(...)`). -/
inductive BotError where
  | api (e : CloudStorageApiError)
  | generic (message : String)
deriving DecidableEq, Repr

structure CreateUserPayload where
  telegramId : String
  name : Option String
  phoneNumber : Option String
deriving DecidableEq, Repr

structure UserResponse where
  id : String
  telegramId : String
  phoneNumber : Option String
  name : String
  profilePic : Option String
  isPhoneVerified : Bool
  createdAt : String
deriving DecidableEq, Repr

structure CreateUserData where
  user : UserResponse
  token : String
  isNewUser : Bool
deriving DecidableEq, Repr

structure GetUploadUrlPayload where
  telegramId : String
  filename : String
  contentType : String
  fileSize : Nat
deriving DecidableEq, Repr

structure GetUploadUrlData where
  fsObjectId : String
  uploadUrl : String
  s3Key : String
deriving DecidableEq, Repr

structure CompleteUploadPayload where
  telegramId : String
  fsObjectId : String
deriving DecidableEq, Repr

structure CompleteUploadData where
  fsObjectId : String
  filename : String
  size : Nat
  sourceType : String
  shareableLink : String
deriving DecidableEq, Repr

structure UpdatePhonePayload where
  telegramId : String
  phoneNumber : String
deriving DecidableEq, Repr

structure UpdatePhoneUser where
  id : String
  telegramId : String
  phoneNumber : String
  name : String
  isPhoneVerified : Bool
deriving DecidableEq, Repr

structure UpdatePhoneData where
  user : UpdatePhoneUser
deriving DecidableEq, Repr

structure SharedFile where
  fsObjectId : String
  filename : String
  size : Nat
  sourceType : String
  createdAt : String
  shareCreatedAt : String
deriving DecidableEq, Repr

structure DeleteShareLinkPayload where
  telegramId : String
  fsObjectId : String
deriving DecidableEq, Repr

structure DeleteShareLinkData where
  fsObjectId : String
  filename : String
deriving DecidableEq, Repr

structure DeleteAccountData where
  deleted : Bool
deriving DecidableEq, Repr

/-- The upload orchestrator's final result (`fastUploadFile` return value). -/
structure UploadResult where
  shareableLink : String
  filename : String
  size : Nat
deriving DecidableEq, Repr

/-! ## The shared JSON request path (`CloudStorageApi.request`) -/

/-- `CloudStorageApi.request` after `fetch` has returned and the body has
been parsed: the body is one JSON value, read as the typed `payload` on a
success status and as the error envelope `errorData` otherwise.  A
non-success status throws `CloudStorageApiError` built from the envelope,
mirroring
`throw new CloudStorageApiError(errorData.message || errorData.error || 'API request failed', response.status, errorData)`. -/
def request (T : Type) (ok : Bool) (status : Nat) (payload : T)
    (errorData : ApiErrorResponse) : Except CloudStorageApiError T :=
  if ok then .ok payload
  else .error ⟨jsOr errorData.message (jsOr errorData.error "API request failed"),
               status, some errorData⟩

/-- Outcome of the legacy multipart upload's axios call
(`CloudStorageApi.uploadFile`). -/
inductive AxiosOutcome (T : Type) where
  | success (data : T)
  | httpError (status : Nat) (body : ApiErrorResponse)
  | transportError (e : BotError)

/-- The catch block of `CloudStorageApi.uploadFile`: an axios error that has
a response becomes a `CloudStorageApiError` carrying the envelope; anything
else is re-thrown. -/
def uploadFileResult (T : Type) (o : AxiosOutcome T) : Except BotError T :=
  match o with
  | .success d => .ok d
  | .httpError status body =>
      .error (.api ⟨jsOr body.message (jsOr body.error "Upload failed"), status, some body⟩)
  | .transportError e => .error e

/-! ## External-call traces and the backend/provider oracle -/

/-- Result of `bot.api.getFile` (only the field the code reads). -/
structure TelegramFile where
  filePath : Option String
deriving DecidableEq, Repr

/-- Result of the raw `fetch` of the file bytes in `downloadTelegramFile`. -/
structure FetchFileResult where
  ok : Bool
  statusText : String
  bytes : Buffer
deriving DecidableEq, Repr

/-- Result of the raw `fetch` PUT in `CloudStorageApi.uploadToS3`. -/
structure PutS3Result where
  ok : Bool
  status : Nat
deriving DecidableEq, Repr

/-- One external call issued by a handler, recorded in order.  `reply`,
`editMessage` and `answerCallback` are the user-visible outputs sent back
through the messaging provider; `logMsg` is a console log; the rest are the
backend / provider / object-storage operations. -/
inductive ExtCall where
  | createUser (p : CreateUserPayload)
  | getUploadUrl (p : GetUploadUrlPayload)
  | getFile (fileId : String)
  | fetchUrl (filePath : String)
  | putS3 (url : String) (body : Buffer) (contentType : String)
  | completeUpload (p : CompleteUploadPayload)
  | deleteAccount (telegramId : String)
  | updatePhone (p : UpdatePhonePayload)
  | listSharedFiles (telegramId : String)
  | deleteShareLink (p : DeleteShareLinkPayload)
  | reply (text : String)
  | replyKb (text : String) (buttons : List (String × String))
  | editMessage (text : String)
  | answerCallback (text : Option String)
  | logMsg (text : String)
deriving DecidableEq, Repr

/-- Backend / provider / object-storage operations, as opposed to messages
sent back to the user and console logs. -/
def isNetworkCall : ExtCall → Bool
  | .reply _ => false
  | .replyKb _ _ => false
  | .editMessage _ => false
  | .answerCallback _ => false
  | .logMsg _ => false
  | _ => true

def ExtCall.isLog : ExtCall → Bool
  | .logMsg _ => true
  | _ => false

/-- A trace with console logs removed. -/
def nonLog (tr : List ExtCall) : List ExtCall :=
  tr.filter (fun c => !c.isLog)

/-- The texts a trace shows to the user (replies and message edits). -/
def userMessages (tr : List ExtCall) : List String :=
  tr.filterMap (fun c =>
    match c with
    | .reply t => some t
    | .replyKb t _ => some t
    | .editMessage t => some t
    | _ => none)

/-- Oracle giving the outcome of each raw network call.  Handlers are
deterministic functions of this oracle and their event. -/
structure BackendEnv where
  createUser : CreateUserPayload → Except BotError CreateUserData
  getUploadUrl : GetUploadUrlPayload → Except BotError GetUploadUrlData
  getFile : String → Except BotError TelegramFile
  fetchFile : String → Except BotError FetchFileResult
  putS3 : String → Buffer → String → Except BotError PutS3Result
  completeUpload : CompleteUploadPayload → Except BotError CompleteUploadData
  deleteAccount : String → Except BotError DeleteAccountData
  updatePhone : UpdatePhonePayload → Except BotError UpdatePhoneData
  listSharedFiles : String → Except BotError (List SharedFile)
  deleteShareLink : DeleteShareLinkPayload → Except BotError DeleteShareLinkData

/-! ## Pure helpers from src/bot.ts -/

/-- `Number.prototype.toFixed(1)` on the exact value `num / den` (`den` a
positive power of two): the nearest multiple of one tenth, ties toward the
larger value, printed with exactly one digit after the point. -/
def toFixed1 (num den : Nat) : String :=
  let t := (20 * num + den) / (2 * den)
  let w := t / 10
  let d := t % 10
  s!"{w}.{d}"

/-- `formatFileSize` from src/bot.ts. -/
def formatFileSize (bytes : Nat) : String :=
  if bytes < 1024 then s!"{bytes} B"
  else if bytes < 1024 * 1024 then toFixed1 bytes 1024 ++ " KB"
  else toFixed1 bytes (1024 * 1024) ++ " MB"

/-- A message sender (`ctx.from`): numeric id plus the name fields read by
`getUserDisplayName`. -/
structure Sender where
  id : Nat
  firstName : String
  lastName : Option String
  username : Option String
deriving DecidableEq, Repr

/-- `getUserDisplayName` from src/bot.ts. -/
def getUserDisplayName (s : Sender) : String :=
  match s.lastName with
  | some l =>
      if s.firstName ≠ "" ∧ l ≠ "" then s.firstName ++ " " ++ l
      else jsStrOr s.firstName (jsOr s.username "User")
  | none => jsStrOr s.firstName (jsOr s.username "User")

/-! ## Update deduplicator (src/bot.ts `isProcessed`) -/

def MAX_PROCESSED_UPDATES : Nat := 1000

/-- `isProcessed` from src/bot.ts.  The state is the `processedUpdates` set
in insertion order.  Returns the `true`/`false` answer and the updated
state: a seen id leaves the state alone; an unseen id is appended, after
first deleting the 500 earliest-inserted entries if the set already holds
`MAX_PROCESSED_UPDATES` ids. -/
def isProcessed (updateId : Nat) (st : List Nat) : Bool × List Nat :=
  if st.contains updateId then
    (true, st)
  else if MAX_PROCESSED_UPDATES ≤ st.length then
    (false, st.drop 500 ++ [updateId])
  else
    (false, st ++ [updateId])

/-- Fold a stream of update ids through the deduplicator starting from the
empty set, returning the final state. -/
def runUpdates (ids : List Nat) : List Nat :=
  ids.foldl (fun st updateId => (isProcessed updateId st).2) []

/-! ## Direct upload orchestrator -/

/-- `downloadTelegramFile` from src/bot.ts: `bot.api.getFile`, then a fetch
of the file URL built from the returned path (the bot token part of the URL
is not modelled), with the `!filePath` and `!response.ok` guards. -/
def downloadTelegramFile (env : BackendEnv) (fileId : String) :
    List ExtCall × Except BotError Buffer :=
  match env.getFile fileId with
  | .error e => ([.getFile fileId], .error e)
  | .ok file =>
    match file.filePath with
    | none => ([.getFile fileId], .error (.generic "Could not get file path from Telegram"))
    | some p =>
      match env.fetchFile p with
      | .error e => ([.getFile fileId, .fetchUrl p], .error e)
      | .ok r =>
        if r.ok then ([.getFile fileId, .fetchUrl p], .ok r.bytes)
        else ([.getFile fileId, .fetchUrl p],
              .error (.generic ("Failed to download file: " ++ r.statusText)))

/-- `CloudStorageApi.uploadToS3`: a single PUT of the bytes to the presigned
URL; a non-success status throws `CloudStorageApiError('Failed to upload to S3', status)`
with no envelope. -/
def uploadToS3 (env : BackendEnv) (uploadUrl : String) (fileBuffer : Buffer)
    (contentType : String) : List ExtCall × Except BotError Unit :=
  match env.putS3 uploadUrl fileBuffer contentType with
  | .error e => ([.putS3 uploadUrl fileBuffer contentType], .error e)
  | .ok r =>
    if r.ok then ([.putS3 uploadUrl fileBuffer contentType], .ok ())
    else ([.putS3 uploadUrl fileBuffer contentType],
          .error (.api ⟨"Failed to upload to S3", r.status, none⟩))

/-- `fastUploadFile` from src/bot.ts: presign, fetch from the provider, PUT
to storage, confirm.  Each `await`ed call is appended to the trace when it
is issued; the first failure aborts the rest. -/
def fastUploadFile (env : BackendEnv) (telegramId fileId filename contentType : String)
    (fileSize : Nat) : List ExtCall × Except BotError UploadResult :=
  match env.getUploadUrl ⟨telegramId, filename, contentType, fileSize⟩ with
  | .error e => ([.getUploadUrl ⟨telegramId, filename, contentType, fileSize⟩], .error e)
  | .ok urlData =>
    let dl := downloadTelegramFile env fileId
    match dl.2 with
    | .error e => (.getUploadUrl ⟨telegramId, filename, contentType, fileSize⟩ :: dl.1, .error e)
    | .ok fileBuffer =>
      let s3 := uploadToS3 env urlData.uploadUrl fileBuffer contentType
      match s3.2 with
      | .error e =>
          (.getUploadUrl ⟨telegramId, filename, contentType, fileSize⟩ :: (dl.1 ++ s3.1), .error e)
      | .ok _ =>
        match env.completeUpload ⟨telegramId, urlData.fsObjectId⟩ with
        | .error e =>
            (.getUploadUrl ⟨telegramId, filename, contentType, fileSize⟩ ::
              (dl.1 ++ s3.1 ++ [.completeUpload ⟨telegramId, urlData.fsObjectId⟩]), .error e)
        | .ok c =>
            (.getUploadUrl ⟨telegramId, filename, contentType, fileSize⟩ ::
              (dl.1 ++ s3.1 ++ [.completeUpload ⟨telegramId, urlData.fsObjectId⟩]),
             .ok ⟨c.shareableLink, c.filename, c.size⟩)

/-- The four steps of the upload transaction, for stating the ordering
property. -/
inductive UploadStep where
  | presign
  | fetchBytes
  | transfer
  | confirm
deriving DecidableEq, Repr

/-- Which transaction step a network call belongs to (`downloadTelegramFile`
issues two raw calls, both part of the fetch step). -/
def uploadStepOf : ExtCall → Option UploadStep
  | .getUploadUrl _ => some .presign
  | .getFile _ => some .fetchBytes
  | .fetchUrl _ => some .fetchBytes
  | .putS3 _ _ _ => some .transfer
  | .completeUpload _ => some .confirm
  | _ => none

/-- Collapse adjacent repetitions of a step. -/
def squeezeSteps : List UploadStep → List UploadStep
  | [] => []
  | [a] => [a]
  | a :: b :: t => if a = b then squeezeSteps (b :: t) else a :: squeezeSteps (b :: t)

/-- The sequence of transaction steps a trace performs, in order. -/
def stepsOf (tr : List ExtCall) : List UploadStep :=
  squeezeSteps (tr.filterMap uploadStepOf)

/-! ## User session resolver -/

/-- `ensureUserRegistered` from src/bot.ts: always calls `createUser`,
catches any failure (logging it) and reports plain `false` instead of
re-throwing. -/
def ensureUserRegistered (env : BackendEnv) (telegramId : String)
    (userName : Option String) : List ExtCall × Bool :=
  match env.createUser ⟨telegramId, userName, none⟩ with
  | .ok _ => ([.createUser ⟨telegramId, userName, none⟩], true)
  | .error _ =>
      ([.createUser ⟨telegramId, userName, none⟩,
        .logMsg "Error ensuring user registration:"], false)

/-- The body of every media handler's `try` block: `ensureUserRegistered`
(result ignored by the code) followed by `fastUploadFile`. -/
def uploadFlow (env : BackendEnv) (telegramId : String) (userName : Option String)
    (fileId filename contentType : String) (fileSize : Nat) :
    List ExtCall × Except BotError UploadResult :=
  let reg := ensureUserRegistered env telegramId userName
  let up := fastUploadFile env telegramId fileId filename contentType fileSize
  (reg.1 ++ up.1, up.2)

/-! ## Message texts -/

def couldNotIdentifyText : String :=
  "Could not identify your account. Please try again."

def skipDupText (updateId : Nat) : String :=
  s!"Skipping duplicate update: {updateId}"

def docTooLargeText : String :=
  "❌ File too large!\n\nMaximum file size is 20MB.\nPlease use a smaller file or compress it first."

def videoTooLargeText : String :=
  "❌ Video too large!\n\nMaximum file size is 20MB.\nPlease use a smaller video or compress it first."

def audioTooLargeText : String :=
  "❌ Audio file too large!\n\nMaximum file size is 20MB."

def docUploadingText (fileName : String) (fileSize : Nat) : String :=
  let sz := formatFileSize fileSize
  s!"📤 Uploading \"{fileName}\"...\nSize: {sz}"

def photoUploadingText (fileSize : Nat) : String :=
  let sz := formatFileSize fileSize
  s!"📤 Uploading photo...\nSize: {sz}"

def videoUploadingText (fileName : String) (fileSize : Nat) : String :=
  let sz := formatFileSize fileSize
  s!"📤 Uploading video \"{fileName}\"...\nSize: {sz}"

def audioUploadingText (fileName : String) (fileSize : Nat) : String :=
  let sz := formatFileSize fileSize
  s!"📤 Uploading audio \"{fileName}\"...\nSize: {sz}"

def voiceUploadingText (fileSize : Nat) : String :=
  let sz := formatFileSize fileSize
  s!"📤 Uploading voice message...\nSize: {sz}"

def docSuccessText (r : UploadResult) : String :=
  let fn := r.filename
  let sz := formatFileSize r.size
  let link := r.shareableLink
  s!"✅ Upload complete!\n\n📄 File: {fn}\n📦 Size: {sz}\n\n🔗 Shareable Link:\n{link}"

def photoSuccessText (r : UploadResult) : String :=
  let sz := formatFileSize r.size
  let link := r.shareableLink
  s!"✅ Photo uploaded!\n\n📸 Size: {sz}\n\n🔗 Shareable Link:\n{link}"

def videoSuccessText (r : UploadResult) : String :=
  let fn := r.filename
  let sz := formatFileSize r.size
  let link := r.shareableLink
  s!"✅ Video uploaded!\n\n🎬 File: {fn}\n📦 Size: {sz}\n\n🔗 Shareable Link:\n{link}"

def audioSuccessText (r : UploadResult) : String :=
  let fn := r.filename
  let sz := formatFileSize r.size
  let link := r.shareableLink
  s!"✅ Audio uploaded!\n\n🎵 File: {fn}\n📦 Size: {sz}\n\n🔗 Shareable Link:\n{link}"

def voiceSuccessText (r : UploadResult) : String :=
  let sz := formatFileSize r.size
  let link := r.shareableLink
  s!"✅ Voice message uploaded!\n\n🎤 Size: {sz}\n\n🔗 Shareable Link:\n{link}"

def uploadFailText (m : String) : String :=
  s!"❌ Upload failed!\n\n{m}\n\nPlease try again."

/-- `error instanceof CloudStorageApiError ? error.message : default`. -/
def errMsgOf (e : BotError) (d : String) : String :=
  match e with
  | .api a => a.message
  | .generic _ => d

def contactRejectText : String :=
  "❌ Please share your own phone number, not someone else\x27s contact."

def contactSuccessText (phone : String) : String :=
  s!"✅ Phone number verified successfully!\n\n📱 Phone: {phone}\n\nYour account is now fully verified."

def contactFailText (m : String) : String :=
  s!"❌ {m}\n\nPlease try again later."

def accountDeletedText : String :=
  "✅ Account Deleted\n\nYour account and all associated data have been deleted.\n\nThank you for using Cloud Storage Bot.\nIf you change your mind, use /start to create a new account."

def noSharedFilesText : String :=
  "📭 No shared files found.\n\nUpload a file first, and I\x27ll generate a shareable link for you."

/-! ## Inbound events -/

structure DocumentEvent where
  updateId : Nat
  sender : Option Sender
  fileId : String
  fileName : Option String
  mimeType : Option String
  fileSize : Option Nat
deriving DecidableEq, Repr

structure PhotoSize where
  fileId : String
  fileSize : Option Nat
deriving DecidableEq, Repr

structure PhotoEvent where
  updateId : Nat
  sender : Option Sender
  photos : List PhotoSize
deriving DecidableEq, Repr

structure VideoEvent where
  updateId : Nat
  sender : Option Sender
  fileId : String
  fileName : Option String
  mimeType : Option String
  fileSize : Option Nat
deriving DecidableEq, Repr

structure AudioEvent where
  updateId : Nat
  sender : Option Sender
  fileId : String
  fileName : Option String
  mimeType : Option String
  fileSize : Option Nat
deriving DecidableEq, Repr

structure VoiceEvent where
  updateId : Nat
  sender : Option Sender
  fileId : String
  mimeType : Option String
  fileSize : Option Nat
deriving DecidableEq, Repr

structure ContactEvent where
  updateId : Nat
  sender : Option Sender
  contactUserId : Option Nat
  phoneNumber : String
deriving DecidableEq, Repr

/-- An event whose payload the handler does not inspect (the
`confirm_delete_account` button press). -/
structure PlainEvent where
  updateId : Nat
  sender : Option Sender
deriving DecidableEq, Repr

/-- A `delete_link:<param>` button press; `dataParam` is the regex capture. -/
structure CallbackEvent where
  updateId : Nat
  sender : Option Sender
  dataParam : String
deriving DecidableEq, Repr

/-- A plain command message (`/delete_link`). -/
structure CommandEvent where
  updateId : Nat
  sender : Option Sender
deriving DecidableEq, Repr

/-! ## Media-upload handlers (src/bot.ts `bot.on('message:...')`) -/

/-- `bot.on('message:document')`: dedup check, sender check, 20 MiB guard,
status message, then the registration + upload flow with its catch block. -/
def documentHandler (env : BackendEnv) (now : Nat) (ev : DocumentEvent)
    (st : List Nat) : List ExtCall × List Nat :=
  match isProcessed ev.updateId st with
  | (true, st1) => ([.logMsg (skipDupText ev.updateId)], st1)
  | (false, st1) =>
    match ev.sender with
    | none => ([.reply couldNotIdentifyText], st1)
    | some s =>
      let telegramId := toString s.id
      let fileName := jsOr ev.fileName "unnamed_file"
      let mimeType := jsOr ev.mimeType "application/octet-stream"
      let fileSize := jsNumOr ev.fileSize 0
      if 20 * 1024 * 1024 < fileSize then
        ([.reply docTooLargeText], st1)
      else
        let userName := getUserDisplayName s
        let flow := uploadFlow env telegramId (some userName) ev.fileId fileName mimeType fileSize
        match flow.2 with
        | .ok r =>
            (.reply (docUploadingText fileName fileSize) ::
              (flow.1 ++ [.editMessage (docSuccessText r)]), st1)
        | .error e =>
            (.reply (docUploadingText fileName fileSize) ::
              (flow.1 ++ [.logMsg "Error uploading document:",
                .editMessage (uploadFailText (errMsgOf e "Failed to upload file."))]), st1)

/-- `bot.on('message:photo')`: no size guard; the largest size variant is
the last entry of the photo array; filename is `photo_<now>.jpg`. -/
def photoHandler (env : BackendEnv) (now : Nat) (ev : PhotoEvent)
    (st : List Nat) : List ExtCall × List Nat :=
  match isProcessed ev.updateId st with
  | (true, st1) => ([.logMsg (skipDupText ev.updateId)], st1)
  | (false, st1) =>
    match ev.sender with
    | none => ([.reply couldNotIdentifyText], st1)
    | some s =>
      match ev.photos.getLast? with
      | none => ([.reply "Could not process this photo. Please try again."], st1)
      | some photo =>
        let telegramId := toString s.id
        let fileSize := jsNumOr photo.fileSize 0
        let fileName := s!"photo_{now}.jpg"
        let userName := getUserDisplayName s
        let flow := uploadFlow env telegramId (some userName) photo.fileId fileName "image/jpeg" fileSize
        match flow.2 with
        | .ok r =>
            (.reply (photoUploadingText fileSize) ::
              (flow.1 ++ [.editMessage (photoSuccessText r)]), st1)
        | .error e =>
            (.reply (photoUploadingText fileSize) ::
              (flow.1 ++ [.logMsg "Error uploading photo:",
                .editMessage (uploadFailText (errMsgOf e "Failed to upload photo."))]), st1)

/-- `bot.on('message:video')`: dedup, sender, 20 MiB guard, then upload. -/
def videoHandler (env : BackendEnv) (now : Nat) (ev : VideoEvent)
    (st : List Nat) : List ExtCall × List Nat :=
  match isProcessed ev.updateId st with
  | (true, st1) => ([.logMsg (skipDupText ev.updateId)], st1)
  | (false, st1) =>
    match ev.sender with
    | none => ([.reply couldNotIdentifyText], st1)
    | some s =>
      let telegramId := toString s.id
      let fileName := jsOr ev.fileName s!"video_{now}.mp4"
      let mimeType := jsOr ev.mimeType "video/mp4"
      let fileSize := jsNumOr ev.fileSize 0
      if 20 * 1024 * 1024 < fileSize then
        ([.reply videoTooLargeText], st1)
      else
        let userName := getUserDisplayName s
        let flow := uploadFlow env telegramId (some userName) ev.fileId fileName mimeType fileSize
        match flow.2 with
        | .ok r =>
            (.reply (videoUploadingText fileName fileSize) ::
              (flow.1 ++ [.editMessage (videoSuccessText r)]), st1)
        | .error e =>
            (.reply (videoUploadingText fileName fileSize) ::
              (flow.1 ++ [.logMsg "Error uploading video:",
                .editMessage (uploadFailText (errMsgOf e "Failed to upload video."))]), st1)

/-- `bot.on('message:audio')`: dedup, sender, 20 MiB guard, then upload. -/
def audioHandler (env : BackendEnv) (now : Nat) (ev : AudioEvent)
    (st : List Nat) : List ExtCall × List Nat :=
  match isProcessed ev.updateId st with
  | (true, st1) => ([.logMsg (skipDupText ev.updateId)], st1)
  | (false, st1) =>
    match ev.sender with
    | none => ([.reply couldNotIdentifyText], st1)
    | some s =>
      let telegramId := toString s.id
      let fileName := jsOr ev.fileName s!"audio_{now}.mp3"
      let mimeType := jsOr ev.mimeType "audio/mpeg"
      let fileSize := jsNumOr ev.fileSize 0
      if 20 * 1024 * 1024 < fileSize then
        ([.reply audioTooLargeText], st1)
      else
        let userName := getUserDisplayName s
        let flow := uploadFlow env telegramId (some userName) ev.fileId fileName mimeType fileSize
        match flow.2 with
        | .ok r =>
            (.reply (audioUploadingText fileName fileSize) ::
              (flow.1 ++ [.editMessage (audioSuccessText r)]), st1)
        | .error e =>
            (.reply (audioUploadingText fileName fileSize) ::
              (flow.1 ++ [.logMsg "Error uploading audio:",
                .editMessage (uploadFailText (errMsgOf e "Failed to upload audio."))]), st1)

/-- `bot.on('message:voice')`: dedup and sender checks, but no size guard in
the source; filename is `voice_<now>.ogg`. -/
def voiceHandler (env : BackendEnv) (now : Nat) (ev : VoiceEvent)
    (st : List Nat) : List ExtCall × List Nat :=
  match isProcessed ev.updateId st with
  | (true, st1) => ([.logMsg (skipDupText ev.updateId)], st1)
  | (false, st1) =>
    match ev.sender with
    | none => ([.reply couldNotIdentifyText], st1)
    | some s =>
      let telegramId := toString s.id
      let fileName := s!"voice_{now}.ogg"
      let mimeType := jsOr ev.mimeType "audio/ogg"
      let fileSize := jsNumOr ev.fileSize 0
      let userName := getUserDisplayName s
      let flow := uploadFlow env telegramId (some userName) ev.fileId fileName mimeType fileSize
      match flow.2 with
      | .ok r =>
          (.reply (voiceUploadingText fileSize) ::
            (flow.1 ++ [.editMessage (voiceSuccessText r)]), st1)
      | .error e =>
          (.reply (voiceUploadingText fileSize) ::
            (flow.1 ++ [.logMsg "Error uploading voice:",
              .editMessage (uploadFailText (errMsgOf e "Failed to upload voice message."))]), st1)

/-! ## State-mutating command handlers -/

/-- `bot.callbackQuery('confirm_delete_account')`: no dedup consultation;
calls `deleteAccount` and reports the outcome.  The dedup state is passed
through untouched. -/
def confirmDeleteAccountHandler (env : BackendEnv) (ev : PlainEvent)
    (st : List Nat) : List ExtCall × List Nat :=
  match ev.sender with
  | none => ([.answerCallback (some "Could not identify your account.")], st)
  | some s =>
    let telegramId := toString s.id
    match env.deleteAccount telegramId with
    | .ok _ =>
        ([.deleteAccount telegramId, .answerCallback (some "Account deleted"),
          .editMessage accountDeletedText], st)
    | .error e =>
        ([.deleteAccount telegramId, .logMsg "Error deleting account:",
          .answerCallback (some (errMsgOf e "Failed to delete account."))], st)

/-- `bot.callbackQuery(/^delete_link:(.+)$/)`: no dedup consultation.  An
empty capture answers `Invalid request.`, `cancel` cancels, anything else
is treated as the `fsObjectId` to delete. -/
def deleteLinkCallbackHandler (env : BackendEnv) (ev : CallbackEvent)
    (st : List Nat) : List ExtCall × List Nat :=
  match ev.sender with
  | none => ([.answerCallback (some "Could not identify your account.")], st)
  | some s =>
    let telegramId := toString s.id
    if ev.dataParam = "" then
      ([.answerCallback (some "Invalid request.")], st)
    else if ev.dataParam = "cancel" then
      ([.answerCallback (some "Cancelled"), .editMessage "Operation cancelled."], st)
    else
      match env.deleteShareLink ⟨telegramId, ev.dataParam⟩ with
      | .ok d =>
          ([.deleteShareLink ⟨telegramId, ev.dataParam⟩,
            .answerCallback (some "Share link deleted!"),
            .editMessage ("✅ Share link deleted successfully!\n\nFile: " ++ d.filename ++
              "\n\nThe shareable link for this file is no longer active.")], st)
      | .error e =>
          ([.deleteShareLink ⟨telegramId, ev.dataParam⟩, .logMsg "Error deleting share link:",
            .answerCallback (some (errMsgOf e "Failed to delete share link."))], st)

/-- `bot.on('message:contact')`: no dedup consultation.  Rejects a contact
whose embedded `user_id` (stringified) differs from the sender id —
including a contact with no `user_id` — and otherwise updates the phone
number, prefixing `+` when missing. -/
def contactHandler (env : BackendEnv) (ev : ContactEvent)
    (st : List Nat) : List ExtCall × List Nat :=
  match ev.sender with
  | none => ([.reply couldNotIdentifyText], st)
  | some s =>
    let telegramId := toString s.id
    if ev.contactUserId.map toString ≠ some telegramId then
      ([.reply contactRejectText], st)
    else
      let formattedPhone :=
        if ev.phoneNumber.startsWith "+" then ev.phoneNumber else "+" ++ ev.phoneNumber
      match env.updatePhone ⟨telegramId, formattedPhone⟩ with
      | .ok d =>
          ([.updatePhone ⟨telegramId, formattedPhone⟩,
            .reply (contactSuccessText d.user.phoneNumber)], st)
      | .error e =>
          ([.updatePhone ⟨telegramId, formattedPhone⟩, .logMsg "Error updating phone:",
            .reply (contactFailText (errMsgOf e "Failed to verify phone number."))], st)

/-! ## `/delete_link` command (selection list) -/

/-- One delete button: label truncates filenames longer than 25 characters
to their first 22 characters plus `...`; the callback data carries the
`fsObjectId`. -/
def deleteLinkButton (f : SharedFile) : String × String :=
  let displayName :=
    if 25 < f.filename.length then f.filename.take 22 ++ "..." else f.filename
  ("🗑 " ++ displayName, "delete_link:" ++ f.fsObjectId)

/-- One line of the numbered list shown by `/delete_link`. -/
def deleteLinkLine (i : Nat) (f : SharedFile) : String :=
  let n := i + 1
  let fn := f.filename
  let sz := formatFileSize f.size
  s!"{n}. {fn} ({sz})"

/-- The `/delete_link` reply text: header, the first ten files numbered,
and a `...and N more` suffix when more than ten files exist. -/
def deleteLinkListText (files : List SharedFile) : String :=
  let body := String.intercalate "\n" ((files.take 10).enum.map (fun p => deleteLinkLine p.1 p.2))
  let rest := files.length - 10
  "🔗 Your Shared Files\n\nSelect a file to delete its shareable link:\n\n" ++ body ++
    (if 10 < files.length then s!"\n\n...and {rest} more" else "")

/-- `bot.command('delete_link')`: lists shared files and offers at most ten
delete buttons plus a cancel button. -/
def deleteLinkCommand (env : BackendEnv) (ev : CommandEvent)
    (st : List Nat) : List ExtCall × List Nat :=
  match ev.sender with
  | none => ([.reply couldNotIdentifyText], st)
  | some s =>
    let telegramId := toString s.id
    match env.listSharedFiles telegramId with
    | .error e =>
        ([.listSharedFiles telegramId, .logMsg "Error listing shared files:",
          .reply (match e with
                  | .api a => "Failed to list shared files: " ++ a.message
                  | .generic _ => "An unexpected error occurred. Please try again later.")], st)
    | .ok files =>
      if files.length = 0 then
        ([.listSharedFiles telegramId, .reply noSharedFilesText], st)
      else
        ([.listSharedFiles telegramId,
          .replyKb (deleteLinkListText files)
            ((files.take 10).map deleteLinkButton ++ [("❌ Cancel", "delete_link:cancel")])], st)

/-! ## Concrete sample data for witnesses and counterexamples -/

def sampleSender : Sender := ⟨7, "Ann", none, none⟩

def sampleUser : UserResponse := ⟨"u1", "7", none, "Ann", none, false, "2024-01-01"⟩

/-- An oracle on which every network call succeeds. -/
def envOk : BackendEnv where
  createUser := fun _ => .ok ⟨sampleUser, "tok", true⟩
  getUploadUrl := fun _ => .ok ⟨"obj1", "https://s3.example/put1", "key1"⟩
  getFile := fun _ => .ok ⟨some "docs/a.bin"⟩
  fetchFile := fun _ => .ok ⟨true, "OK", [1, 2, 3]⟩
  putS3 := fun _ _ _ => .ok ⟨true, 200⟩
  completeUpload := fun _ => .ok ⟨"obj1", "a.bin", 3, "document", "https://share.example/1"⟩
  deleteAccount := fun _ => .ok ⟨true⟩
  updatePhone := fun p => .ok ⟨⟨"u1", p.telegramId, p.phoneNumber, "Ann", true⟩⟩
  listSharedFiles := fun _ => .ok []
  deleteShareLink := fun p => .ok ⟨p.fsObjectId, "a.bin"⟩

/-- Like `envOk` but the S3 PUT comes back with a non-success status. -/
def envS3Fail : BackendEnv := { envOk with putS3 := fun _ _ _ => .ok ⟨false, 403⟩ }

/-- Like `envOk` but user registration fails with a backend error. -/
def envRegFail : BackendEnv :=
  { envOk with createUser := fun _ => .error (.api ⟨"db down", 500, none⟩) }

def docEv : DocumentEvent := ⟨1, some sampleSender, "fid1", some "a.bin", some "application/pdf", some 3⟩

def docBigEv : DocumentEvent := ⟨11, some sampleSender, "fidD", some "big.bin", some "application/pdf", some 20971521⟩

def bigVoiceEv : VoiceEvent := ⟨2, some sampleSender, "fidV", some "audio/ogg", some 20971521⟩

def cbEv : PlainEvent := ⟨3, some sampleSender⟩

def mismatchContactEv : ContactEvent := ⟨4, some sampleSender, some 9, "123456"⟩

def mkSampleFile (i : Nat) (name : String) (size : Nat) : SharedFile :=
  ⟨s!"obj{i}", name, size, "document", "2024-01-01", "2024-01-02"⟩

def files12 : List SharedFile :=
  [mkSampleFile 1 "this_is_a_very_long_filename.bin" 10,
   mkSampleFile 2 "f2.bin" 20, mkSampleFile 3 "f3.bin" 30,
   mkSampleFile 4 "f4.bin" 40, mkSampleFile 5 "f5.bin" 50,
   mkSampleFile 6 "f6.bin" 60, mkSampleFile 7 "f7.bin" 70,
   mkSampleFile 8 "f8.bin" 80, mkSampleFile 9 "f9.bin" 90,
   mkSampleFile 10 "f10.bin" 100, mkSampleFile 11 "f11.bin" 110,
   mkSampleFile 12 "f12.bin" 120]

def envFiles : BackendEnv := { envOk with listSharedFiles := fun _ => .ok files12 }

def dlEv : CommandEvent := ⟨9, some sampleSender⟩

/-! ## Helper lemmas -/

theorem isProcessed_fst_iff (updateId : Nat) (st : List Nat) :
    (isProcessed updateId st).1 = true ↔ updateId ∈ st := by
  unfold isProcessed
  by_cases h : updateId ∈ st
  · simp [h]
  · simp [h]
    split <;> simp

theorem isProcessed_of_mem {updateId : Nat} {st : List Nat} (h : updateId ∈ st) :
    isProcessed updateId st = (true, st) := by
  unfold isProcessed
  simp [h]

theorem isProcessed_of_not_mem_lt {updateId : Nat} {st : List Nat} (h : updateId ∉ st)
    (hl : st.length < MAX_PROCESSED_UPDATES) :
    isProcessed updateId st = (false, st ++ [updateId]) := by
  unfold isProcessed
  simp [h, Nat.not_le.mpr hl]

theorem isProcessed_of_not_mem_ge {updateId : Nat} {st : List Nat} (h : updateId ∉ st)
    (hl : MAX_PROCESSED_UPDATES ≤ st.length) :
    isProcessed updateId st = (false, st.drop 500 ++ [updateId]) := by
  unfold isProcessed
  simp [h, hl]

theorem mem_isProcessed_snd (updateId : Nat) (st : List Nat) :
    updateId ∈ (isProcessed updateId st).2 := by
  unfold isProcessed
  by_cases h : updateId ∈ st
  · simp [h]
  · simp [h]
    split <;> simp

theorem isProcessed_length_le (updateId : Nat) (st : List Nat)
    (h : st.length ≤ MAX_PROCESSED_UPDATES) :
    ((isProcessed updateId st).2).length ≤ MAX_PROCESSED_UPDATES := by
  unfold isProcessed MAX_PROCESSED_UPDATES at *
  by_cases hm : updateId ∈ st
  · simpa [hm]
  · simp [hm]
    split <;> simp <;> omega

theorem foldl_isProcessed_length_le (ids : List Nat) (st : List Nat)
    (h : st.length ≤ MAX_PROCESSED_UPDATES) :
    (ids.foldl (fun acc updateId => (isProcessed updateId acc).2) st).length ≤
      MAX_PROCESSED_UPDATES := by
  induction ids generalizing st with
  | nil => simpa using h
  | cons x xs ih =>
      simpa using ih _ (isProcessed_length_le x st h)

/-! ## C4 -/

/-- C4: the deduplicator `isProcessed` answers `true` exactly when the id is
currently recorded; an unseen id is recorded and answered `false`; and when
the set already holds `MAX_PROCESSED_UPDATES = 1000` ids, the 500
earliest-inserted ids are evicted as a batch before the new id is admitted. -/
theorem c4_isProcessed_contract (updateId : Nat) (st : List Nat) :
    ((isProcessed updateId st).1 = true ↔ updateId ∈ st) ∧
    (updateId ∈ st → isProcessed updateId st = (true, st)) ∧
    (updateId ∉ st → st.length < MAX_PROCESSED_UPDATES →
      isProcessed updateId st = (false, st ++ [updateId])) ∧
    (updateId ∉ st → MAX_PROCESSED_UPDATES ≤ st.length →
      isProcessed updateId st = (false, st.drop 500 ++ [updateId])) :=
  ⟨isProcessed_fst_iff updateId st,
   fun h => isProcessed_of_mem h,
   fun h hl => isProcessed_of_not_mem_lt h hl,
   fun h hl => isProcessed_of_not_mem_ge h hl⟩

theorem c4_witness :
    ((2 : Nat) ∈ [1, 2, 3] ∧ isProcessed 2 [1, 2, 3] = (true, [1, 2, 3])) ∧
    ((5 : Nat) ∉ [1, 2, 3] ∧ isProcessed 5 [1, 2, 3] = (false, [1, 2, 3, 5])) :=
  ⟨⟨by decide, (c4_isProcessed_contract 2 [1, 2, 3]).2.1 (by decide)⟩,
   ⟨by decide, (c4_isProcessed_contract 5 [1, 2, 3]).2.2.1 (by decide) (by decide)⟩⟩

/-! ## C9 -/

/-- C9: starting from the empty `processedUpdates` set, the set's size after
any sequence of `isProcessed` calls never exceeds
`MAX_PROCESSED_UPDATES = 1000` (every prefix of a call sequence is itself a
sequence, so this bounds the size after each call). -/
theorem c9_processed_updates_bounded (ids : List Nat) :
    (runUpdates ids).length ≤ MAX_PROCESSED_UPDATES := by
  unfold runUpdates
  exact foldl_isProcessed_length_le ids [] (by simp)

/-! ## C8 -/

/-- C8: `formatFileSize` has thresholds at 1024 and 1024²: below 1024 it
prints the integer byte count with a `B` suffix and no decimal; between the
thresholds it prints `b / 1024` to one decimal place (`t` is the number of
tenths: the inequalities pin `t` as the rounding of `10·b/1024` to the
nearest integer, ties upward) with a `KB` suffix; at or above 1024² it
prints `b / 1024²` to one decimal place with an `MB` suffix. -/
theorem c8_formatFileSize (b : Nat) :
    (b < 1024 → formatFileSize b = s!"{b} B") ∧
    (1024 ≤ b → b < 1024 * 1024 → ∃ t : Nat,
      formatFileSize b = s!"{t / 10}.{t % 10}" ++ " KB" ∧
      512 * t ≤ 5 * b + 256 ∧ 5 * b + 256 < 512 * t + 512) ∧
    (1024 * 1024 ≤ b → ∃ t : Nat,
      formatFileSize b = s!"{t / 10}.{t % 10}" ++ " MB" ∧
      1048576 * t ≤ 10 * b + 524288 ∧ 10 * b + 524288 < 1048576 * t + 1048576) := by
  refine ⟨fun h => ?_, fun h1 h2 => ?_, fun h => ?_⟩
  · simp [formatFileSize, h]
  · refine ⟨(20 * b + 1024) / (2 * 1024), ?_, by omega, by omega⟩
    simp only [formatFileSize, toFixed1, if_neg (by omega : ¬ b < 1024), if_pos h2]
  · refine ⟨(20 * b + 1024 * 1024) / (2 * (1024 * 1024)), ?_, by omega, by omega⟩
    simp only [formatFileSize, toFixed1, if_neg (by omega : ¬ b < 1024),
      if_neg (by omega : ¬ b < 1024 * 1024)]

theorem c8_witness :
    (1024 ≤ 1536 ∧ 1536 < 1024 * 1024) ∧
    (∃ t : Nat, formatFileSize 1536 = s!"{t / 10}.{t % 10}" ++ " KB" ∧
      512 * t ≤ 5 * 1536 + 256 ∧ 5 * 1536 + 256 < 512 * t + 512) :=
  ⟨⟨by decide, by decide⟩, (c8_formatFileSize 1536).2.1 (by decide) (by decide)⟩

/-! ## C5 -/

/-- C5: whenever the backend answers a non-success HTTP status, the shared
request path fails with a `CloudStorageApiError` carrying the envelope's
message (falling back to the optional `error` detail, and to a generic text
only when both are missing or empty), the HTTP status code, and the envelope
itself; the legacy multipart upload path does the same from its axios error
response. -/
theorem c5_error_envelope :
    (∀ (T : Type) (status : Nat) (payload : T) (errorData : ApiErrorResponse),
      request T false status payload errorData =
        Except.error ⟨jsOr errorData.message (jsOr errorData.error "API request failed"),
          status, some errorData⟩ ∧
      (∀ m, errorData.message = some m → m ≠ "" →
        jsOr errorData.message (jsOr errorData.error "API request failed") = m) ∧
      ((errorData.message = none ∨ errorData.message = some "") →
        ∀ d, errorData.error = some d → d ≠ "" →
          jsOr errorData.message (jsOr errorData.error "API request failed") = d)) ∧
    (∀ (T : Type) (status : Nat) (body : ApiErrorResponse),
      uploadFileResult T (AxiosOutcome.httpError status body) =
        Except.error (.api ⟨jsOr body.message (jsOr body.error "Upload failed"),
          status, some body⟩)) := by
  refine ⟨fun T status payload errorData => ⟨rfl, fun m hm hne => ?_, fun hnone d hd hne => ?_⟩,
    fun T status body => rfl⟩
  · simp [jsOr, hm, hne]
  · rcases hnone with h | h <;> simp [jsOr, h, hd, hne]

theorem c5_witness :
    (⟨"error", some "Not found", none⟩ : ApiErrorResponse).message = some "Not found" ∧
    request Nat false 404 0 ⟨"error", some "Not found", none⟩ =
      Except.error ⟨"Not found", 404, some ⟨"error", some "Not found", none⟩⟩ := by
  refine ⟨rfl, ?_⟩
  have h := (c5_error_envelope.1 Nat 404 0 ⟨"error", some "Not found", none⟩).1
  simpa [jsOr] using h

theorem uploadToS3_fst (env : BackendEnv) (url : String) (b : Buffer) (ct : String) :
    (uploadToS3 env url b ct).1 = [.putS3 url b ct] := by
  unfold uploadToS3
  split
  · rfl
  · split <;> rfl

theorem downloadTelegramFile_steps (env : BackendEnv) (fid : String) :
    List.filterMap uploadStepOf (downloadTelegramFile env fid).1 = [UploadStep.fetchBytes] ∨
    List.filterMap uploadStepOf (downloadTelegramFile env fid).1 =
      [UploadStep.fetchBytes, UploadStep.fetchBytes] := by
  unfold downloadTelegramFile
  split
  · left; simp [uploadStepOf]
  · split
    · left; simp [uploadStepOf]
    · split
      · right; simp [uploadStepOf]
      · split <;> (right; simp [uploadStepOf])

/-! ## C1 -/

/-- C1: a successful run of `fastUploadFile` performs exactly the four steps
presign (`getUploadUrl`), fetch (`downloadTelegramFile`), transfer
(`uploadToS3`), confirm (`completeUpload`) in that order; and when a run
fails, the steps performed are exactly the prefix up to and including the
failing step, the later steps are not executed, and the transaction's error
is the failing step's own error. -/
theorem c1_upload_step_order (env : BackendEnv) (tid fid fn ct : String) (sz : Nat) :
    (∀ r, (fastUploadFile env tid fid fn ct sz).2 = Except.ok r →
      stepsOf (fastUploadFile env tid fid fn ct sz).1 =
        [UploadStep.presign, UploadStep.fetchBytes, UploadStep.transfer, UploadStep.confirm]) ∧
    (∀ e, (fastUploadFile env tid fid fn ct sz).2 = Except.error e →
      (env.getUploadUrl ⟨tid, fn, ct, sz⟩ = Except.error e ∧
        stepsOf (fastUploadFile env tid fid fn ct sz).1 = [UploadStep.presign]) ∨
      (∃ u, env.getUploadUrl ⟨tid, fn, ct, sz⟩ = Except.ok u ∧
        (downloadTelegramFile env fid).2 = Except.error e ∧
        stepsOf (fastUploadFile env tid fid fn ct sz).1 =
          [UploadStep.presign, UploadStep.fetchBytes]) ∨
      (∃ u b, env.getUploadUrl ⟨tid, fn, ct, sz⟩ = Except.ok u ∧
        (downloadTelegramFile env fid).2 = Except.ok b ∧
        (uploadToS3 env u.uploadUrl b ct).2 = Except.error e ∧
        stepsOf (fastUploadFile env tid fid fn ct sz).1 =
          [UploadStep.presign, UploadStep.fetchBytes, UploadStep.transfer]) ∨
      (∃ u b, env.getUploadUrl ⟨tid, fn, ct, sz⟩ = Except.ok u ∧
        (downloadTelegramFile env fid).2 = Except.ok b ∧
        (uploadToS3 env u.uploadUrl b ct).2 = Except.ok () ∧
        env.completeUpload ⟨tid, u.fsObjectId⟩ = Except.error e ∧
        stepsOf (fastUploadFile env tid fid fn ct sz).1 =
          [UploadStep.presign, UploadStep.fetchBytes, UploadStep.transfer, UploadStep.confirm])) := by
  constructor
  · intro r hr
    unfold fastUploadFile at hr ⊢
    cases h1 : env.getUploadUrl ⟨tid, fn, ct, sz⟩ with
    | error e => simp [h1] at hr
    | ok u =>
      simp only [h1] at hr ⊢
      cases h2 : (downloadTelegramFile env fid).2 with
      | error e => simp [h2] at hr
      | ok b =>
        simp only [h2] at hr ⊢
        cases h3 : (uploadToS3 env u.uploadUrl b ct).2 with
        | error e => simp [h3] at hr
        | ok u3 =>
          simp only [h3] at hr ⊢
          cases h4 : env.completeUpload ⟨tid, u.fsObjectId⟩ with
          | error e => simp [h4] at hr
          | ok c =>
            simp only [h4]
            rcases downloadTelegramFile_steps env fid with hd | hd <;>
              simp [stepsOf, List.filterMap_append, uploadStepOf, hd,
                uploadToS3_fst, squeezeSteps]
  · intro e he
    unfold fastUploadFile at he ⊢
    cases h1 : env.getUploadUrl ⟨tid, fn, ct, sz⟩ with
    | error e1 =>
      simp only [h1] at he ⊢
      simp only [Except.error.injEq] at he
      subst he
      exact Or.inl ⟨rfl, by simp [stepsOf, uploadStepOf, squeezeSteps]⟩
    | ok u =>
      simp only [h1] at he ⊢
      cases h2 : (downloadTelegramFile env fid).2 with
      | error e2 =>
        simp only [h2] at he ⊢
        simp only [Except.error.injEq] at he
        subst he
        refine Or.inr (Or.inl ⟨u, rfl, rfl, ?_⟩)
        rcases downloadTelegramFile_steps env fid with hd | hd <;>
          simp [stepsOf, List.filterMap_cons, uploadStepOf, hd, squeezeSteps]
      | ok b =>
        simp only [h2] at he ⊢
        cases h3 : (uploadToS3 env u.uploadUrl b ct).2 with
        | error e3 =>
          simp only [h3] at he ⊢
          simp only [Except.error.injEq] at he
          subst he
          refine Or.inr (Or.inr (Or.inl ⟨u, b, rfl, rfl, h3, ?_⟩))
          rcases downloadTelegramFile_steps env fid with hd | hd <;>
            simp [stepsOf, List.filterMap_append, uploadStepOf, hd,
              uploadToS3_fst, squeezeSteps]
        | ok u3 =>
          simp only [h3] at he ⊢
          cases h4 : env.completeUpload ⟨tid, u.fsObjectId⟩ with
          | error e4 =>
            simp only [h4] at he ⊢
            simp only [Except.error.injEq] at he
            subst he
            refine Or.inr (Or.inr (Or.inr ⟨u, b, rfl, rfl, h3, h4, ?_⟩))
            rcases downloadTelegramFile_steps env fid with hd | hd <;>
              simp [stepsOf, List.filterMap_append, uploadStepOf, hd,
                uploadToS3_fst, squeezeSteps]
          | ok c => simp [h4] at he

theorem c1_witness :
    (fastUploadFile envOk "7" "fid1" "a.bin" "application/pdf" 3).2 =
      Except.ok ⟨"https://share.example/1", "a.bin", 3⟩ ∧
    stepsOf (fastUploadFile envOk "7" "fid1" "a.bin" "application/pdf" 3).1 =
      [UploadStep.presign, UploadStep.fetchBytes, UploadStep.transfer, UploadStep.confirm] := by
  refine ⟨by rfl, ?_⟩
  exact (c1_upload_step_order envOk "7" "fid1" "a.bin" "application/pdf" 3).1
    ⟨"https://share.example/1", "a.bin", 3⟩ (by rfl)

/-! ## C2 -/

/-- C2 counterexample: the voice handler has no size guard.  A voice event
declaring 20 MiB + 1 bytes is not rejected; the handler performs six
backend/provider network calls (createUser, getUploadUrl, getFile, the file
fetch, the S3 PUT, completeUpload). -/
theorem c2_counterexample :
    20 * 1024 * 1024 < jsNumOr bigVoiceEv.fileSize 0 ∧
    ((voiceHandler envOk 0 bigVoiceEv []).1.filter isNetworkCall).length = 6 :=
  ⟨by decide, by rfl⟩

/-- C2 (amended): the 20 MiB pre-flight guard exists for document, video and
audio events only — for those kinds, an event declaring more than
20·1024·1024 bytes is answered with the specific "too large" reply and
nothing else, so no backend or provider call is issued.  Photo and voice
events have no size guard. -/
theorem c2_size_guard (env : BackendEnv) (now : Nat) (st : List Nat) :
    (∀ (ev : DocumentEvent) (s : Sender), (isProcessed ev.updateId st).1 = false →
      ev.sender = some s → 20 * 1024 * 1024 < jsNumOr ev.fileSize 0 →
      documentHandler env now ev st =
        ([.reply docTooLargeText], (isProcessed ev.updateId st).2)) ∧
    (∀ (ev : VideoEvent) (s : Sender), (isProcessed ev.updateId st).1 = false →
      ev.sender = some s → 20 * 1024 * 1024 < jsNumOr ev.fileSize 0 →
      videoHandler env now ev st =
        ([.reply videoTooLargeText], (isProcessed ev.updateId st).2)) ∧
    (∀ (ev : AudioEvent) (s : Sender), (isProcessed ev.updateId st).1 = false →
      ev.sender = some s → 20 * 1024 * 1024 < jsNumOr ev.fileSize 0 →
      audioHandler env now ev st =
        ([.reply audioTooLargeText], (isProcessed ev.updateId st).2)) := by
  refine ⟨fun ev s hdup hs hsz => ?_, fun ev s hdup hs hsz => ?_, fun ev s hdup hs hsz => ?_⟩
  all_goals
    rcases hip : isProcessed ev.updateId st with ⟨b, st1⟩
    rw [hip] at hdup
    simp only at hdup
    subst hdup
  · simp [documentHandler, hip, hs, hsz]
  · simp [videoHandler, hip, hs, hsz]
  · simp [audioHandler, hip, hs, hsz]

theorem c2_witness :
    ((isProcessed docBigEv.updateId []).1 = false ∧
      20 * 1024 * 1024 < jsNumOr docBigEv.fileSize 0) ∧
    documentHandler envOk 0 docBigEv [] = ([.reply docTooLargeText], [11]) :=
  ⟨⟨by decide, by decide⟩,
   (c2_size_guard envOk 0 []).1 docBigEv sampleSender (by decide) rfl (by decide)⟩

/-! ## C6 -/

/-- C6: the contact handler rejects a shared contact whose embedded user id
(stringified, and `none` in particular) differs from the sender's own id —
the whole run is the single rejection reply, so `updatePhone` is never
called — and any `updatePhone` call it does issue carries the sender's own
id, which can only happen when the embedded id matches it. -/
theorem c6_contact_verification (env : BackendEnv) (ev : ContactEvent) (st : List Nat)
    (s : Sender) (hs : ev.sender = some s) :
    (ev.contactUserId.map toString ≠ some (toString s.id) →
      contactHandler env ev st = ([.reply contactRejectText], st)) ∧
    (∀ p : UpdatePhonePayload, ExtCall.updatePhone p ∈ (contactHandler env ev st).1 →
      ev.contactUserId.map toString = some (toString s.id) ∧
        p.telegramId = toString s.id) := by
  constructor
  · intro hne
    simp [contactHandler, hs, hne]
  · intro p hp
    unfold contactHandler at hp
    rw [hs] at hp
    simp only at hp
    by_cases hg : ev.contactUserId.map toString ≠ some (toString s.id)
    · rw [if_pos hg] at hp
      simp at hp
    · rw [if_neg hg] at hp
      push_neg at hg
      refine ⟨hg, ?_⟩
      rcases hu : env.updatePhone ⟨toString s.id,
          if ev.phoneNumber.startsWith "+" then ev.phoneNumber
          else "+" ++ ev.phoneNumber⟩ with e | d <;>
        rw [hu] at hp <;> simp at hp <;> simp [hp]

theorem c6_witness :
    mismatchContactEv.sender = some sampleSender ∧
    contactHandler envOk mismatchContactEv [] = ([.reply contactRejectText], []) :=
  ⟨rfl, (c6_contact_verification envOk mismatchContactEv [] sampleSender rfl).1 (by decide)⟩

/-! ## C3 helper lemmas -/

theorem documentHandler_snd (env : BackendEnv) (now : Nat) (ev : DocumentEvent) (st : List Nat) :
    (documentHandler env now ev st).2 = (isProcessed ev.updateId st).2 := by
  unfold documentHandler
  rcases hip : isProcessed ev.updateId st with ⟨b, st1⟩
  cases b
  all_goals dsimp only
  all_goals repeat' split
  all_goals rfl

theorem photoHandler_snd (env : BackendEnv) (now : Nat) (ev : PhotoEvent) (st : List Nat) :
    (photoHandler env now ev st).2 = (isProcessed ev.updateId st).2 := by
  unfold photoHandler
  rcases hip : isProcessed ev.updateId st with ⟨b, st1⟩
  cases b
  all_goals dsimp only
  all_goals repeat' split
  all_goals rfl

theorem videoHandler_snd (env : BackendEnv) (now : Nat) (ev : VideoEvent) (st : List Nat) :
    (videoHandler env now ev st).2 = (isProcessed ev.updateId st).2 := by
  unfold videoHandler
  rcases hip : isProcessed ev.updateId st with ⟨b, st1⟩
  cases b
  all_goals dsimp only
  all_goals repeat' split
  all_goals rfl

theorem audioHandler_snd (env : BackendEnv) (now : Nat) (ev : AudioEvent) (st : List Nat) :
    (audioHandler env now ev st).2 = (isProcessed ev.updateId st).2 := by
  unfold audioHandler
  rcases hip : isProcessed ev.updateId st with ⟨b, st1⟩
  cases b
  all_goals dsimp only
  all_goals repeat' split
  all_goals rfl

theorem voiceHandler_snd (env : BackendEnv) (now : Nat) (ev : VoiceEvent) (st : List Nat) :
    (voiceHandler env now ev st).2 = (isProcessed ev.updateId st).2 := by
  unfold voiceHandler
  rcases hip : isProcessed ev.updateId st with ⟨b, st1⟩
  cases b
  all_goals dsimp only
  all_goals repeat' split
  all_goals rfl

theorem documentHandler_dup (env : BackendEnv) (now : Nat) (ev : DocumentEvent)
    (st : List Nat) (h : ev.updateId ∈ st) :
    documentHandler env now ev st = ([.logMsg (skipDupText ev.updateId)], st) := by
  unfold documentHandler
  rw [isProcessed_of_mem h]

theorem photoHandler_dup (env : BackendEnv) (now : Nat) (ev : PhotoEvent)
    (st : List Nat) (h : ev.updateId ∈ st) :
    photoHandler env now ev st = ([.logMsg (skipDupText ev.updateId)], st) := by
  unfold photoHandler
  rw [isProcessed_of_mem h]

theorem videoHandler_dup (env : BackendEnv) (now : Nat) (ev : VideoEvent)
    (st : List Nat) (h : ev.updateId ∈ st) :
    videoHandler env now ev st = ([.logMsg (skipDupText ev.updateId)], st) := by
  unfold videoHandler
  rw [isProcessed_of_mem h]

theorem audioHandler_dup (env : BackendEnv) (now : Nat) (ev : AudioEvent)
    (st : List Nat) (h : ev.updateId ∈ st) :
    audioHandler env now ev st = ([.logMsg (skipDupText ev.updateId)], st) := by
  unfold audioHandler
  rw [isProcessed_of_mem h]

theorem voiceHandler_dup (env : BackendEnv) (now : Nat) (ev : VoiceEvent)
    (st : List Nat) (h : ev.updateId ∈ st) :
    voiceHandler env now ev st = ([.logMsg (skipDupText ev.updateId)], st) := by
  unfold voiceHandler
  rw [isProcessed_of_mem h]

theorem confirmDeleteAccountHandler_snd (env : BackendEnv) (ev : PlainEvent) (st : List Nat) :
    (confirmDeleteAccountHandler env ev st).2 = st := by
  unfold confirmDeleteAccountHandler
  dsimp only
  repeat' split
  all_goals rfl

theorem deleteLinkCallbackHandler_snd (env : BackendEnv) (ev : CallbackEvent) (st : List Nat) :
    (deleteLinkCallbackHandler env ev st).2 = st := by
  unfold deleteLinkCallbackHandler
  dsimp only
  repeat' split
  all_goals rfl

theorem contactHandler_snd (env : BackendEnv) (ev : ContactEvent) (st : List Nat) :
    (contactHandler env ev st).2 = st := by
  unfold contactHandler
  dsimp only
  repeat' split
  all_goals rfl

/-! ## C3 -/

/-- C3 counterexample: the `confirm_delete_account` button handler never
consults the deduplicator, so submitting the same event (same update
identifier) a second time — with the state left by the first submission —
performs the backend `deleteAccount` call again: both runs issue exactly one
backend call. -/
theorem c3_counterexample :
    ((confirmDeleteAccountHandler envOk cbEv []).1.filter isNetworkCall) =
      [ExtCall.deleteAccount "7"] ∧
    ((confirmDeleteAccountHandler envOk cbEv
        ((confirmDeleteAccountHandler envOk cbEv []).2)).1.filter isNetworkCall) =
      [ExtCall.deleteAccount "7"] :=
  ⟨rfl, rfl⟩

/-- C3 (amended): only the five media-upload handlers consult the
deduplicator — each of them, given an already-recorded update id, performs
nothing but a console log (nothing is sent to the user, no backend call, and
the state is unchanged), and re-submitting any document event to the handler
after a first run is dropped that way.  The state-mutating command handlers
(delete-account confirmation, delete-link button, phone update) do not
consult the deduplicator: they never record the id and re-run identically —
backend side effects included — on a repeated identifier. -/
theorem c3_dedup_boundary :
    (∀ (env : BackendEnv) (now : Nat) (ev : DocumentEvent) (st : List Nat), ev.updateId ∈ st →
      documentHandler env now ev st = ([.logMsg (skipDupText ev.updateId)], st)) ∧
    (∀ (env : BackendEnv) (now : Nat) (ev : PhotoEvent) (st : List Nat), ev.updateId ∈ st →
      photoHandler env now ev st = ([.logMsg (skipDupText ev.updateId)], st)) ∧
    (∀ (env : BackendEnv) (now : Nat) (ev : VideoEvent) (st : List Nat), ev.updateId ∈ st →
      videoHandler env now ev st = ([.logMsg (skipDupText ev.updateId)], st)) ∧
    (∀ (env : BackendEnv) (now : Nat) (ev : AudioEvent) (st : List Nat), ev.updateId ∈ st →
      audioHandler env now ev st = ([.logMsg (skipDupText ev.updateId)], st)) ∧
    (∀ (env : BackendEnv) (now : Nat) (ev : VoiceEvent) (st : List Nat), ev.updateId ∈ st →
      voiceHandler env now ev st = ([.logMsg (skipDupText ev.updateId)], st)) ∧
    (∀ (env : BackendEnv) (now : Nat) (ev : DocumentEvent) (st : List Nat),
      documentHandler env now ev ((documentHandler env now ev st).2) =
        ([.logMsg (skipDupText ev.updateId)], (documentHandler env now ev st).2)) ∧
    (∀ (env : BackendEnv) (ev : PlainEvent) (st : List Nat),
      confirmDeleteAccountHandler env ev ((confirmDeleteAccountHandler env ev st).2) =
        confirmDeleteAccountHandler env ev st) ∧
    (∀ (env : BackendEnv) (ev : CallbackEvent) (st : List Nat),
      deleteLinkCallbackHandler env ev ((deleteLinkCallbackHandler env ev st).2) =
        deleteLinkCallbackHandler env ev st) ∧
    (∀ (env : BackendEnv) (ev : ContactEvent) (st : List Nat),
      contactHandler env ev ((contactHandler env ev st).2) = contactHandler env ev st) := by
  refine ⟨fun env now ev st h => documentHandler_dup env now ev st h,
    fun env now ev st h => photoHandler_dup env now ev st h,
    fun env now ev st h => videoHandler_dup env now ev st h,
    fun env now ev st h => audioHandler_dup env now ev st h,
    fun env now ev st h => voiceHandler_dup env now ev st h,
    fun env now ev st => ?_, fun env ev st => ?_, fun env ev st => ?_, fun env ev st => ?_⟩
  · refine documentHandler_dup env now ev _ ?_
    rw [documentHandler_snd]
    exact mem_isProcessed_snd ev.updateId st
  · rw [confirmDeleteAccountHandler_snd]
  · rw [deleteLinkCallbackHandler_snd]
  · rw [contactHandler_snd]

theorem c3_witness :
    docEv.updateId ∈ [1] ∧
    documentHandler envOk 0 docEv [1] = ([.logMsg (skipDupText docEv.updateId)], [1]) :=
  ⟨by decide, c3_dedup_boundary.1 envOk 0 docEv [1] (by decide)⟩

/-! ## C7 -/

theorem isLog_reply (t : String) : (ExtCall.reply t).isLog = false := rfl

theorem isLog_editMessage (t : String) : (ExtCall.editMessage t).isLog = false := rfl

theorem isLog_logMsg (t : String) : (ExtCall.logMsg t).isLog = true := rfl

theorem uploadFlow_createUser_invariant (env : BackendEnv)
    (g : CreateUserPayload → Except BotError CreateUserData)
    (tid : String) (n : Option String) (fid fn ct : String) (sz : Nat) :
    nonLog (uploadFlow { env with createUser := g } tid n fid fn ct sz).1 =
      nonLog (uploadFlow env tid n fid fn ct sz).1 ∧
    (uploadFlow { env with createUser := g } tid n fid fn ct sz).2 =
      (uploadFlow env tid n fid fn ct sz).2 := by
  have hfast : fastUploadFile { env with createUser := g } tid fid fn ct sz =
      fastUploadFile env tid fid fn ct sz := rfl
  unfold uploadFlow ensureUserRegistered
  constructor
  · rcases hg : g ⟨tid, n, none⟩ with e1 | d1 <;>
      rcases hc : env.createUser ⟨tid, n, none⟩ with e2 | d2 <;>
      simp [hg, hc, hfast, nonLog, ExtCall.isLog, List.filter_append]
  · simp [hfast]

/-- C7 counterexample: with a backend on which registration fails but the
upload steps succeed, the document handler's user-visible messages are
exactly the upload status message and the success message — the
registration failure is never downgraded to a user-visible error message. -/
theorem c7_counterexample :
    isOkE (envRegFail.createUser ⟨"7", some "Ann", none⟩) = false ∧
    userMessages (documentHandler envRegFail 0 docEv []).1 =
      [docUploadingText "a.bin" 3, docSuccessText ⟨"https://share.example/1", "a.bin", 3⟩] :=
  ⟨rfl, by rfl⟩

/-- C7 (amended): `ensureUserRegistered` catches a backend registration
failure and returns the boolean `false` instead of re-throwing (so the
failure is recoverable, not fatal); but the media-upload router ignores that
result and proceeds with the upload regardless — the document handler's
behavior (its non-log trace and its dedup state) is identical whatever the
`createUser` outcome is. -/
theorem c7_registration_recoverable (env : BackendEnv)
    (g : CreateUserPayload → Except BotError CreateUserData) :
    (∀ (telegramId : String) (userName : Option String),
      (ensureUserRegistered env telegramId userName).2 =
        isOkE (env.createUser ⟨telegramId, userName, none⟩)) ∧
    (∀ (now : Nat) (ev : DocumentEvent) (st : List Nat),
      nonLog (documentHandler { env with createUser := g } now ev st).1 =
        nonLog (documentHandler env now ev st).1 ∧
      (documentHandler { env with createUser := g } now ev st).2 =
        (documentHandler env now ev st).2) := by
  constructor
  · intro tid n
    rcases h : env.createUser ⟨tid, n, none⟩ with e | d <;>
      simp [ensureUserRegistered, isOkE, h]
  · intro now ev st
    unfold documentHandler
    rcases hip : isProcessed ev.updateId st with ⟨b, st1⟩
    cases b
    · rcases hs : ev.sender with _ | s
      · exact ⟨rfl, rfl⟩
      · dsimp only
        by_cases hsz : 20 * 1024 * 1024 < jsNumOr ev.fileSize 0
        · simp [hsz]
        · simp only [if_neg hsz]
          obtain ⟨hA, hB⟩ := uploadFlow_createUser_invariant env g (toString s.id)
            (some (getUserDisplayName s)) ev.fileId (jsOr ev.fileName "unnamed_file")
            (jsOr ev.mimeType "application/octet-stream") (jsNumOr ev.fileSize 0)
          simp only [nonLog] at hA
          rcases hf : (uploadFlow env (toString s.id) (some (getUserDisplayName s)) ev.fileId
              (jsOr ev.fileName "unnamed_file") (jsOr ev.mimeType "application/octet-stream")
              (jsNumOr ev.fileSize 0)).2 with e | r
          · rw [hf] at hB
            rw [hB]
            refine ⟨?_, rfl⟩
            simp [nonLog, List.filter_cons, List.filter_append,
              isLog_reply, isLog_editMessage, isLog_logMsg, hA]
          · rw [hf] at hB
            rw [hB]
            refine ⟨?_, rfl⟩
            simp [nonLog, List.filter_cons, List.filter_append,
              isLog_reply, isLog_editMessage, isLog_logMsg, hA]
    · exact ⟨rfl, rfl⟩

/-! ## C10 -/

/-- C10: `/delete_link` with a non-empty file list replies with the
selection view: the keyboard is one delete button per file of the first ten
files (so `min 10 n` delete buttons) plus the cancel button; every delete
button is bound to one of the first ten files, so files beyond the tenth
cannot be selected; a filename longer than 25 characters is truncated to its
first 22 characters plus `...` in the button label; and the list text
depends only on the first ten files and the total count (the remainder is
only summarized). -/
theorem c10_delete_link_selection (env : BackendEnv) (ev : CommandEvent) (st : List Nat)
    (s : Sender) (files : List SharedFile) (hs : ev.sender = some s)
    (hf : env.listSharedFiles (toString s.id) = Except.ok files) (hne : files ≠ []) :
    deleteLinkCommand env ev st =
      ([ExtCall.listSharedFiles (toString s.id),
        ExtCall.replyKb (deleteLinkListText files)
          ((files.take 10).map deleteLinkButton ++ [("❌ Cancel", "delete_link:cancel")])], st) ∧
    ((files.take 10).map deleteLinkButton ++ [("❌ Cancel", "delete_link:cancel")]).length =
      min 10 files.length + 1 ∧
    (∀ b ∈ (files.take 10).map deleteLinkButton, ∃ f ∈ files.take 10, b = deleteLinkButton f) ∧
    (∀ f : SharedFile, 25 < f.filename.length →
      (deleteLinkButton f).1 = "🗑 " ++ (f.filename.take 22 ++ "...")) ∧
    (∀ files2 : List SharedFile, files2.take 10 = files.take 10 →
      files2.length = files.length → deleteLinkListText files2 = deleteLinkListText files) := by
  have h0 : ¬ files.length = 0 := by
    intro h
    exact hne (List.length_eq_zero.mp h)
  refine ⟨?_, ?_, ?_, ?_, ?_⟩
  · unfold deleteLinkCommand
    simp only [hs, hf]
    rw [if_neg h0]
  · simp [List.length_append, List.length_map, List.length_take]
  · intro b hb
    rcases List.mem_map.mp hb with ⟨f, hmem, rfl⟩
    exact ⟨f, hmem, rfl⟩
  · intro f hlen
    simp [deleteLinkButton, if_pos hlen]
  · intro files2 h10 hlen
    unfold deleteLinkListText
    rw [h10, hlen]

theorem c10_witness :
    (envFiles.listSharedFiles "7" = Except.ok files12 ∧ files12 ≠ []) ∧
    deleteLinkCommand envFiles dlEv [] =
      ([ExtCall.listSharedFiles (toString sampleSender.id),
        ExtCall.replyKb (deleteLinkListText files12)
          ((files12.take 10).map deleteLinkButton ++ [("❌ Cancel", "delete_link:cancel")])], []) :=
  ⟨⟨rfl, by decide⟩,
   (c10_delete_link_selection envFiles dlEv [] sampleSender files12 rfl rfl (by decide)).1⟩
